import Mathlib

set_option maxRecDepth 8000

/-!
Verification of the runbook question-answering pipeline (guardrails,
document chunking, answer generation) against its specification.

The Python modules `guardrails.py`, `document_processor.py` and
`llm_manager.py` are shallowly embedded below.  Strings are modelled by
`String`/`List Char`; Python string methods (`lower`, `split`, `strip`,
the used regular expressions) are modelled on their ASCII behaviour,
which covers every character class the patterns mention.  The float
comparison `overlap / len >= 0.1` is modelled by the exact rational
comparison `len ≤ 10 * overlap`; for word counts far below 10^15 the two
agree, since IEEE division is correctly rounded and the gap between 1/10
and its nearest double is smaller than 1/(10·len).
-/

/-! ## Python string primitives (ASCII model) -/

/-- ASCII whitespace as matched by Python `str.split`, `str.strip` and `\s`. -/
def pyIsSpace (c : Char) : Bool :=
  c = ' ' || c = '\t' || c = '\n' || c = '\r' || c = Char.ofNat 11 || c = Char.ofNat 12

/-- Python `str.lower`, ASCII model. -/
def pyLower (l : List Char) : List Char := l.map Char.toLower

/-- `pyLower` packaged on `String`. -/
def pyLowerS (s : String) : String := ⟨pyLower s.data⟩

/-- Helper for `pySplit`: accumulates the current word (reversed). -/
def pySplitAux : List Char → List Char → List String
  | [], acc => if acc.isEmpty then [] else [⟨acc.reverse⟩]
  | c :: rest, acc =>
    if pyIsSpace c then
      if acc.isEmpty then pySplitAux rest [] else (⟨acc.reverse⟩ : String) :: pySplitAux rest []
    else pySplitAux rest (c :: acc)

/-- Python `str.split()` with no argument: split on whitespace runs, dropping
empty pieces. -/
def pySplit (l : List Char) : List String := pySplitAux l []

/-- Python `str.strip()`: drop whitespace from both ends. -/
def pyStrip (l : List Char) : List Char :=
  ((l.dropWhile pyIsSpace).reverse.dropWhile pyIsSpace).reverse

/-- Python `needle in hay` on strings: substring test. -/
def isSubstrOf (needle : List Char) : List Char → Bool
  | [] => needle.isEmpty
  | c :: rest => needle.isPrefixOf (c :: rest) || isSubstrOf needle rest

/-! ## guardrails.py — output grounding (`validate_response_accuracy`) -/

/-- The set (as a deduplicated list) of whitespace-separated words of all
sources, exactly as `source_keywords` is built in
`GuardrailsManager.validate_response_accuracy`: the sources are *not*
lowercased. -/
def sourceWordSet (sources : List String) : List String :=
  (sources.flatMap (fun s => pySplit s.data)).dedup

/-- The set of words of the lowercased response (`response_words`). -/
def responseWordSet (response : String) : List String :=
  (pySplit (pyLower response.data)).dedup

/-- `len(source_keywords.intersection(response_words))`. -/
def overlapCount (response : String) (sources : List String) : Nat :=
  ((responseWordSet response).filter
    (fun w => (sourceWordSet sources).contains w)).length

/-- `GuardrailsManager.validate_response_accuracy`: no sources → `False`;
otherwise grounded iff the response has at least one word and at least 10%
of its distinct lowercased words occur among the (case-preserved) source
words. -/
def validate_response_accuracy (response : String) (sources : List String) : Bool :=
  if sources = [] then false
  else if 0 < (responseWordSet response).length then
    decide ((responseWordSet response).length ≤ 10 * overlapCount response sources)
  else false

/-- The grounding predicate exactly as claim C1 words it: both the answer and
the concatenated sources are tokenized into *lowercase* word sets.  This is a
spec-side definition, kept for comparison with the code-side
`validate_response_accuracy`. -/
def groundedPerSpecWords (response : String) (sources : List String) : Bool :=
  let sws := (sources.flatMap (fun s => pySplit (pyLower s.data))).dedup
  let rws := responseWordSet response
  decide (sources ≠ []) && decide (rws ≠ []) &&
    decide (rws.length ≤ 10 * (rws.filter (fun w => sws.contains w)).length)

/-! ## guardrails.py — injection sanitizer (`check_injection_patterns`)

`re.sub(pattern, '', query, flags=re.IGNORECASE)` is modelled per pattern by
a matcher that, given a suffix of the input, returns the length of the
(leftmost-starting, Python-semantics) match at that position, if any, and a
scanner `subScan` that removes each leftmost non-overlapping match. -/

/-- Case-insensitive "is `p` a prefix of `s`" (the patterns run under
`re.IGNORECASE`). -/
def ciPrefixOf : List Char → List Char → Bool
  | [], _ => true
  | _ :: _, [] => false
  | p :: ps, c :: cs => (p.toLower = c.toLower) && ciPrefixOf ps cs

/-- Length of the leading whitespace run. -/
def wsRunLen (l : List Char) : Nat := (l.takeWhile pyIsSpace).length

/-- The SQL verbs of the pattern `(union|select|drop|delete|insert|update)\s+`.
No listed verb is a prefix of another, so the alternation order never
matters. -/
def sqlVerbs : List (List Char) :=
  ["union".data, "select".data, "drop".data, "delete".data, "insert".data, "update".data]

/-- The function names of the pattern `(eval|exec|system|shell_exec)\s*\(`. -/
def codeCalls : List (List Char) :=
  ["eval".data, "exec".data, "system".data, "shell_exec".data]

/-- Match of `(union|select|drop|delete|insert|update)\s+` at the head of `s`:
a verb followed by a maximal (greedy) nonempty whitespace run. -/
def sqlMatch (s : List Char) : Option Nat :=
  match sqlVerbs.find? (fun k => ciPrefixOf k s) with
  | some k =>
    let r := wsRunLen (s.drop k.length)
    if 0 < r then some (k.length + r) else none
  | none => none

/-- Match of `(eval|exec|system|shell_exec)\s*\(` at the head of `s`: a name,
a whitespace run, then a literal opening parenthesis. -/
def codeMatch (s : List Char) : Option Nat :=
  match codeCalls.find? (fun k => ciPrefixOf k s) with
  | some k =>
    let rest := s.drop k.length
    let r := wsRunLen rest
    match rest.drop r with
    | '(' :: _ => some (k.length + r + 1)
    | _ => none
  | none => none

/-- Index of the first `>` in `l`, scanning only while no newline is seen
(`.` in the pattern does not match `\n`). -/
def findGt : List Char → Option Nat
  | [] => none
  | c :: rest =>
    if c = '>' then some 0
    else if c = '\n' then none
    else (findGt rest).map (· + 1)

/-- Index of the first position where `</script>` starts (case-insensitively),
scanning only while no newline is seen. -/
def findCloseTag : List Char → Option Nat
  | [] => none
  | c :: rest =>
    if ciPrefixOf "</script>".data (c :: rest) then some 0
    else if c = '\n' then none
    else (findCloseTag rest).map (· + 1)

/-- Match of `<script.*?>.*?</script>` at the head of `s`.  Both `.*?` are
lazy, so the first `>` and then the first `</script>` are taken; since the
whole match must be newline-free, no backtracking past those choices can
succeed, and this first-candidate search is exact. -/
def scriptMatch (s : List Char) : Option Nat :=
  if ciPrefixOf "<script".data s then
    match findGt (s.drop 7) with
    | some j =>
      match findCloseTag (s.drop (7 + j + 1)) with
      | some k => some (7 + j + 1 + k + 9)
      | none => none
    | none => none
  else none

/-- Fuel-driven scanner for `re.sub(pattern, '', s)`: at each position, if the
matcher fires (our matchers always return a positive length), the matched
span is dropped and scanning resumes after it; otherwise the character is
kept.  `fuel ≥ s.length` guarantees the fuel is never exhausted. -/
def subScanF : Nat → (List Char → Option Nat) → List Char → List Char
  | 0, _, _ => []
  | _ + 1, _, [] => []
  | fuel + 1, m, c :: rest =>
    match m (c :: rest) with
    | some n => subScanF fuel m (List.drop (n - 1) rest)
    | none => c :: subScanF fuel m rest

/-- `re.sub(pattern, '', s)` for one pattern. -/
def subScan (m : List Char → Option Nat) (l : List Char) : List Char :=
  subScanF l.length m l

/-- Does the pattern match anywhere in `l`? -/
def hasMatch (m : List Char → Option Nat) : List Char → Bool
  | [] => false
  | c :: rest => (m (c :: rest)).isSome || hasMatch m rest

/-- `GuardrailsManager.check_injection_patterns`: remove the XSS pattern, then
the SQL pattern, then the code-call pattern, each case-insensitively, and
return the cleaned query. -/
def check_injection_patterns (query : String) : String :=
  ⟨subScan codeMatch (subScan sqlMatch (subScan scriptMatch query.data))⟩

/-! ## guardrails.py — input pipeline (`validate_input`) -/

/-- The failure modes of the input validators, each raised as a `ValueError`
in the source.  `sensitiveKeyword` models the content-safety failure (the
UnsafeContent error of the spec) and carries the matched keyword; `tooLong`
models QueryTooLong; `noDocuments` models NoDocumentsAvailable. -/
inductive InputError where
  | tooLong : InputError
  | sensitiveKeyword : String → InputError
  | noDocuments : InputError
deriving DecidableEq, Repr

/-- `GuardrailsManager.validate_input_length`: reject queries longer than
2000 characters. -/
def validate_input_length (query : String) : Except InputError Bool :=
  if 2000 < query.length then .error .tooLong else .ok true

/-- The content-safety denylist (`harmful_keywords`). -/
def harmful_keywords : List String :=
  ["password", "secret", "private key", "confidential",
   "hack", "exploit", "malware", "virus"]

/-- `GuardrailsManager.validate_content_safety`: lowercase the query and fail
on the first denylisted keyword occurring in it as a substring. -/
def validate_content_safety (query : String) : Except InputError Bool :=
  match harmful_keywords.find? (fun k => isSubstrOf k.data (pyLower query.data)) with
  | some k => .error (.sensitiveKeyword k)
  | none => .ok true

/-- Does the lowercased string contain some denylisted keyword? -/
def keywordHit (s : String) : Bool :=
  harmful_keywords.any (fun k => isSubstrOf k.data (pyLower s.data))

/-- `GuardrailsManager.check_document_context`: fail when no documents are
available. -/
def check_document_context (available_docs : List String) : Except InputError Bool :=
  if available_docs = [] then .error .noDocuments else .ok true

/-- `GuardrailsManager.validate_input`: run the validators in order — length
check on the raw query, then the injection sanitizer (whose output replaces
the query), then content safety on the *sanitized* query, then document
availability — returning the sanitized query on success.  `context` models
the optional context dict via its `documents` entry. -/
def validate_input (query : String) (context : Option (List String)) :
    Except InputError String :=
  let docs := context.getD []
  match validate_input_length query with
  | .error e => .error e
  | .ok _ =>
    let cleaned := check_injection_patterns query
    match validate_content_safety cleaned with
    | .error e => .error e
    | .ok _ =>
      match check_document_context docs with
      | .error e => .error e
      | .ok _ => .ok cleaned

/-! ## guardrails.py — reference validators -/

/-- One character of the class `[\w\-. ]` (ASCII `\w`). -/
def refChar (c : Char) : Bool :=
  c.isAlphanum || c = '_' || c = '-' || c = '.' || c = ' '

/-- `re.match(r'^[\w\-. ]+$', ref)` succeeding: a nonempty string of class
characters.  Python `$` also matches just before one trailing newline, so a
single final `\n` after a nonempty class run is accepted too. -/
def refCharsetOk (l : List Char) : Bool :=
  if l.getLast? = some '\n' then
    !l.dropLast.isEmpty && l.dropLast.all refChar
  else
    !l.isEmpty && l.all refChar

/-- `GuardrailsManager.validate_metadata_reference`: reject names outside the
character class, then normalize and reject parent-directory or absolute
paths.  Accepted names contain no `/`, and `os.path.normpath` is the
identity on nonempty slash-free strings, so normalization returns the name
itself and `os.path.isabs` is always false; the remaining rejection is the
leading `..`. -/
def validate_metadata_reference (ref : String) : Option String :=
  if refCharsetOk ref.data then
    if "..".data.isPrefixOf ref.data then none else some ref
  else none

/-- The per-reference acceptance test of the loop body in
`GuardrailsManager.validate_output_references`: sanitize, then require
membership in the valid set. -/
def refAccepted (valid_refs : List String) (ref : String) : Bool :=
  match validate_metadata_reference ref with
  | none => false
  | some s => valid_refs.contains s

/-- `GuardrailsManager.validate_output_references`: every extracted reference
must sanitize successfully and be a known valid reference. -/
def validate_output_references (response_refs valid_refs : List String) : Bool :=
  response_refs.all (refAccepted valid_refs)

/-- The two literal tag heads of the extraction pattern
`\[Image:\s*([^\]]+)\]|\[Table:\s*([^\]]+)\]` (case-sensitive). -/
def refTagImage : List Char := "[Image:".data

/-- See `refTagImage`. -/
def refTagTable : List Char := "[Table:".data

/-- Index of the first `]`. -/
def firstRBracket : List Char → Option Nat
  | [] => none
  | c :: rest => if c = ']' then some 0 else (firstRBracket rest).map (· + 1)

/-- Try to match one alternative `\[Tag:\s*([^\]]+)\]` at the head of `s`:
after the literal tag, greedy `\s*` takes the whitespace run (backing off so
that `[^\]]+` keeps at least one character before the first `]`), the capture
runs to the first `]`, and the appended reference is the stripped capture.
Returns the stripped capture and the total match length. -/
def tryRefTag (tag : List Char) (s : List Char) : Option (String × Nat) :=
  if tag.isPrefixOf s then
    let t := s.drop tag.length
    match firstRBracket t with
    | some r =>
      if 0 < r then
        some (⟨pyStrip ((t.take r).drop (min (wsRunLen t) (r - 1)))⟩, tag.length + r + 1)
      else none
    | none => none
  else none

/-- Fuel-driven scanner for `re.findall` of the reference pattern: at each
position try the `Image` alternative, then the `Table` alternative, and on a
match emit the stripped capture and resume after the match. -/
def extractScanF : Nat → List Char → List String
  | 0, _ => []
  | _ + 1, [] => []
  | fuel + 1, c :: rest =>
    match tryRefTag refTagImage (c :: rest) with
    | some (name, len) => name :: extractScanF fuel (List.drop (len - 1) rest)
    | none =>
      match tryRefTag refTagTable (c :: rest) with
      | some (name, len) => name :: extractScanF fuel (List.drop (len - 1) rest)
      | none => extractScanF fuel rest

/-- `GuardrailsManager.extract_references_from_response`. -/
def extract_references_from_response (response : String) : List String :=
  extractScanF response.data.length response.data

/-! ## guardrails.py — output pipeline (`validate_output`) -/

/-- `GuardrailsManager.check_hallucination` — a placeholder delegating to
`validate_response_accuracy`. -/
def check_hallucination (response : String) (sources : List String) : Bool :=
  validate_response_accuracy response sources

/-- `GuardrailsManager.verify_source_grounding` — a placeholder delegating to
`validate_response_accuracy`. -/
def verify_source_grounding (response : String) (sources : List String) : Bool :=
  validate_response_accuracy response sources

/-- The `output_validators` list installed by `GuardrailsManager.__init__`. -/
def output_validators : List (String → List String → Bool) :=
  [validate_response_accuracy, check_hallucination, verify_source_grounding]

/-- `GuardrailsManager.validate_output`: every output validator must pass;
then, only when the caller supplied a truthy (non-`None`, nonempty)
`references` list, the references extracted from the response are checked
against it. -/
def validate_output (response : String) (sources : List String)
    (references : Option (List String)) : Bool :=
  if output_validators.all (fun v => v response sources) then
    match references with
    | some refs =>
      if refs = [] then true
      else validate_output_references (extract_references_from_response response) refs
    | none => true
  else false

/-! ## document_processor.py — `process_document`

The modality extractors (`extract_text_images_tables_pdf`,
`extract_text_images_tables_docx`) and the langchain text splitter wrap file
I/O and an external library; they enter the embedding as function
parameters.  Both extractors produce a triple of concatenated text, image
metadata records and table records, which `process_document` assembles into
chunks. -/

/-- The metadata record built for one extracted image (`page` is set on the
PDF path and absent on the DOCX path). -/
structure ImgMeta where
  file : String
  caption : String
  page : Option Nat
deriving DecidableEq, Repr

/-- The metadata record built for one extracted table (`page` on the PDF
path, `tableIndex` on the DOCX path). -/
structure TblMeta where
  content : List (List String)
  caption : String
  page : Option Nat
  tableIndex : Option Nat
deriving DecidableEq, Repr

/-- Chunk content: a string for text and image chunks (images carry the empty
string), rows for table chunks. -/
inductive ChunkBody where
  | str : String → ChunkBody
  | rows : List (List String) → ChunkBody
deriving DecidableEq, Repr

/-- Chunk metadata: the extraction record for image and table chunks, and the
single-entry mapping with key `chunk_id` for text chunks. -/
inductive ChunkMeta where
  | img : ImgMeta → ChunkMeta
  | tbl : TblMeta → ChunkMeta
  | chunkId : Nat → ChunkMeta
deriving DecidableEq, Repr

/-- One emitted chunk dict (keys `type`, `content`, `metadata`). -/
structure Chunk where
  type : String
  content : ChunkBody
  metadata : ChunkMeta
deriving DecidableEq, Repr

/-- The chunk appended for one image record. -/
def imageChunk (image : ImgMeta) : Chunk := ⟨"image", .str "", .img image⟩

/-- The chunk appended for one table record. -/
def tableChunk (table : TblMeta) : Chunk := ⟨"table", .rows table.content, .tbl table⟩

/-- The chunk appended for one enumerated text window. -/
def textChunk (p : Nat × String) : Chunk := ⟨"text", .str p.2, .chunkId p.1⟩

/-- The three append loops of `DocumentProcessor.process_document`: image
chunks, then table chunks, then one chunk per split text window with
metadata `chunk_id = index`. -/
def assembleChunks (split : String → List String) (text : String)
    (images : List ImgMeta) (tables : List TblMeta) : List Chunk :=
  let c1 := images.foldl (fun acc image => acc ++ [imageChunk image]) []
  let c2 := tables.foldl (fun acc table => acc ++ [tableChunk table]) c1
  (split text).enum.foldl (fun acc p => acc ++ [textChunk p]) c2

/-- `DocumentProcessor.process_document`: dispatch on the lowercased file
type (`pdf` / `docx` / `doc`), raise on anything else, and assemble the
extracted modalities into chunks. -/
def process_document (split : String → List String)
    (extractPdf extractDocx : String → String × List ImgMeta × List TblMeta)
    (file_path file_type : String) : Except String (List Chunk) :=
  if pyLowerS file_type = "pdf" then
    let ext := extractPdf file_path
    .ok (assembleChunks split ext.1 ext.2.1 ext.2.2)
  else if pyLowerS file_type = "docx" ∨ pyLowerS file_type = "doc" then
    let ext := extractDocx file_path
    .ok (assembleChunks split ext.1 ext.2.1 ext.2.2)
  else .error ("Unsupported file type: " ++ file_type)

/-- The ordered chunk list claim C8 describes, for one extraction triple:
all image chunks, then all table chunks, then the enumerated text chunks. -/
def chunksFor (split : String → List String)
    (ext : String × List ImgMeta × List TblMeta) : List Chunk :=
  ext.2.1.map imageChunk ++ ext.2.2.map tableChunk ++ (split ext.1).enum.map textChunk

/-! ## llm_manager.py — `generate_response`

The single network interaction of `LocalLLMManager.generate_response` is the
`requests.post` to the generate endpoint; its outcome enters the embedding
as a parameter: either the request raised (`requests.RequestException`,
carrying the exception text) or a response arrived with a status code and an
optional `response` field in its JSON body. -/

/-- Outcome of the backend HTTP call. -/
inductive BackendOutcome where
  | exn : String → BackendOutcome
  | resp : Nat → Option String → BackendOutcome
deriving DecidableEq, Repr

/-- Failure outcomes per the spec: the service is unreachable, or it answered
with a non-success status. -/
def isBackendFailure : BackendOutcome → Bool
  | .exn _ => true
  | .resp status _ => decide (status ≠ 200)

/-- `LocalLLMManager.generate_response`: on status 200 return the `response`
field (or an in-band error text when the field is missing); on any other
status or on a raised request exception return an in-band error text.  No
path raises. -/
def generate_response (prompt context : String) (outcome : BackendOutcome) : String :=
  match prompt, context, outcome with
  | _, _, .exn msg => "Error: Unable to connect to Ollama server - " ++ msg
  | _, _, .resp status field =>
    if status = 200 then
      match field with
      | some r => r
      | none => "Error: No response field in API output"
    else "Error: Ollama returned status " ++ toString status

/-! ## Claim C1 -/

/-- Claim C1 counterexample: the claim demands that grounding lowercase the
source words as well; the code does not.  For the answer `"Hello"` with the
single source `"Hello"` the claimed predicate holds (every lowercased answer
word is a lowercased source word), yet the code returns `false`. -/
theorem c1_counterexample :
    groundedPerSpecWords "Hello" ["Hello"] = true ∧
      validate_response_accuracy "Hello" ["Hello"] = false := by
  decide

/-- Claim C1 (amended): the grounding check returns true iff the source list
is nonempty, the answer has at least one word, and at least 10% of the
distinct *lowercased* answer words occur among the *case-preserved* source
words; in particular an answer all of whose lowercased words occur verbatim
among the source words passes, and an answer none of whose lowercased words
occurs among the source words fails. -/
theorem c1_grounding_characterization :
    (∀ (response : String) (sources : List String),
        validate_response_accuracy response sources = true ↔
          sources ≠ [] ∧ responseWordSet response ≠ [] ∧
            (responseWordSet response).length ≤ 10 * overlapCount response sources)
    ∧ (∀ (response : String) (sources : List String),
        sources ≠ [] → responseWordSet response ≠ [] →
        (∀ w ∈ responseWordSet response, w ∈ sourceWordSet sources) →
        validate_response_accuracy response sources = true)
    ∧ (∀ (response : String) (sources : List String),
        (∀ w ∈ responseWordSet response, w ∉ sourceWordSet sources) →
        validate_response_accuracy response sources = false) := by
  have key : ∀ (response : String) (sources : List String),
      validate_response_accuracy response sources = true ↔
        sources ≠ [] ∧ responseWordSet response ≠ [] ∧
          (responseWordSet response).length ≤ 10 * overlapCount response sources := by
    intro response sources
    unfold validate_response_accuracy
    by_cases hs : sources = []
    · simp [hs]
    · by_cases hr : 0 < (responseWordSet response).length
      · simp [hs, hr, List.length_pos.mp hr]
      · have hnil : responseWordSet response = [] :=
          List.length_eq_zero.mp (Nat.eq_zero_of_not_pos hr)
        simp [hs, hr, hnil]
  refine ⟨key, ?_, ?_⟩
  · intro response sources hs hr hw
    apply (key response sources).mpr
    refine ⟨hs, hr, ?_⟩
    have hfil : (responseWordSet response).filter
        (fun w => (sourceWordSet sources).contains w) = responseWordSet response := by
      apply List.filter_eq_self.mpr
      intro a ha
      simpa using hw a ha
    unfold overlapCount
    rw [hfil]
    omega
  · intro response sources hw
    have hov : overlapCount response sources = 0 := by
      unfold overlapCount
      have hfil : (responseWordSet response).filter
          (fun w => (sourceWordSet sources).contains w) = [] := by
        apply List.filter_eq_nil_iff.mpr
        intro a ha
        simpa using hw a ha
      rw [hfil]
      rfl
    unfold validate_response_accuracy
    by_cases hs : sources = []
    · simp [hs]
    · by_cases hr : 0 < (responseWordSet response).length
      · rw [if_neg hs, if_pos hr, hov]
        simp only [Nat.mul_zero, decide_eq_false_iff_not]
        omega
      · simp [hs, hr]

/-- Witness for the amended C1 theorem at a concrete grounded answer. -/
theorem c1_witness : validate_response_accuracy "a b" ["a"] = true :=
  (c1_grounding_characterization.1 "a b" ["a"]).mpr
    ⟨by decide, by decide, by decide⟩

/-! ## Claim C2 -/

/-- If a pattern matches nowhere in `l`, substituting it away leaves `l`
unchanged (fuel version). -/
theorem subScanF_of_no_match (m : List Char → Option Nat) :
    ∀ (fuel : Nat) (l : List Char), l.length ≤ fuel → hasMatch m l = false →
      subScanF fuel m l = l := by
  intro fuel
  induction fuel with
  | zero =>
    intro l hl _
    have : l = [] := List.length_eq_zero.mp (Nat.le_zero.mp hl)
    rw [this]
    rfl
  | succ fuel ih =>
    intro l hl hm
    cases l with
    | nil => rfl
    | cons c rest =>
      have h1 : m (c :: rest) = none := by
        cases hmc : m (c :: rest) with
        | none => rfl
        | some n => simp [hasMatch, hmc] at hm
      have h2 : hasMatch m rest = false := by
        simp [hasMatch, h1] at hm
        exact hm
      simp only [subScanF, h1]
      exact congrArg (c :: ·) (ih rest (Nat.le_of_succ_le_succ hl) h2)

/-- If a pattern matches nowhere in `l`, `re.sub` of it leaves `l`
unchanged. -/
theorem subScan_of_no_match (m : List Char → Option Nat) (l : List Char)
    (h : hasMatch m l = false) : subScan m l = l :=
  subScanF_of_no_match m l.length l (Nat.le_refl _) h

/-- Claim C2 counterexample: the sanitizer is not idempotent.  Removing the
SQL match `"select "` from `"selselect ect "` splices the surrounding
characters into a fresh `"select "`, which only a second application
removes. -/
theorem c2_counterexample :
    check_injection_patterns "selselect ect " = "select " ∧
      check_injection_patterns (check_injection_patterns "selselect ect ") ≠
        check_injection_patterns "selselect ect " := by
  decide

/-- Claim C2 (amended): the sanitizer is idempotent on every query whose
sanitized form is free of all three dangerous patterns; in general a removal
can splice text into a new match, so a second application may remove more. -/
theorem c2_sanitizer_conditional_idempotent :
    ∀ q : String,
      hasMatch scriptMatch (check_injection_patterns q).data = false →
      hasMatch sqlMatch (check_injection_patterns q).data = false →
      hasMatch codeMatch (check_injection_patterns q).data = false →
      check_injection_patterns (check_injection_patterns q) = check_injection_patterns q := by
  intro q h1 h2 h3
  have hstep : check_injection_patterns (check_injection_patterns q) =
      ⟨subScan codeMatch (subScan sqlMatch
        (subScan scriptMatch (check_injection_patterns q).data))⟩ := rfl
  rw [hstep, subScan_of_no_match _ _ h1, subScan_of_no_match _ _ h2,
    subScan_of_no_match _ _ h3]

/-- Witness for the amended C2 theorem at a pattern-free query. -/
theorem c2_witness :
    check_injection_patterns (check_injection_patterns "abc") =
      check_injection_patterns "abc" :=
  c2_sanitizer_conditional_idempotent "abc" (by decide) (by decide) (by decide)

/-! ## Claim C3 -/

/-- Claim C3 counterexample: the answer contains the bracketed reference
`[Image: ../../etc/passwd]`, whose name violates the reference rules and is
absent from the supplied (empty) valid-reference set, yet output validation
passes: the reference check is gated on the `references` argument being a
nonempty list, not on the answer containing a reference. -/
theorem c3_counterexample :
    "../../etc/passwd" ∈
        extract_references_from_response "hello [Image: ../../etc/passwd]" ∧
      validate_metadata_reference "../../etc/passwd" = none ∧
      validate_output "hello [Image: ../../etc/passwd]" ["hello"] (some []) = true := by
  decide

/-- Claim C3 (amended): reference validation runs only when the caller
supplies a nonempty valid-reference list; whenever it runs, an answer
containing an extracted reference that fails the per-reference check (rule
violation or absence from the list) makes output validation return
failure. -/
theorem c3_reference_failure_fails_output :
    ∀ (response : String) (sources refs : List String) (r : String),
      refs ≠ [] → r ∈ extract_references_from_response response →
      refAccepted refs r = false →
      validate_output response sources (some refs) = false := by
  intro response sources refs r hrefs hmem hbad
  unfold validate_output
  cases hall : output_validators.all (fun v => v response sources) with
  | false => simp [hall]
  | true =>
    simp only [hall, if_true]
    rw [if_neg hrefs]
    unfold validate_output_references
    cases hv : (extract_references_from_response response).all (refAccepted refs) with
    | false => rfl
    | true =>
      have hacc := List.all_eq_true.mp hv r hmem
      rw [hbad] at hacc
      exact absurd hacc (by simp)

/-- Witness for the amended C3 theorem at a concrete bad reference. -/
theorem c3_witness :
    validate_output "hello [Image: bad]" ["hello"] (some ["x"]) = false :=
  c3_reference_failure_fails_output "hello [Image: bad]" ["hello"] ["x"] "bad"
    (by decide) (by decide) (by decide)

/-! ## Claim C4 -/

/-- `validate_metadata_reference` either rejects a name or returns it
unchanged (normalization is the identity on accepted names). -/
theorem validate_metadata_reference_eq :
    ∀ ref : String, validate_metadata_reference ref = none ∨
      validate_metadata_reference ref = some ref := by
  intro ref
  unfold validate_metadata_reference
  by_cases h1 : refCharsetOk ref.data = true
  · rw [if_pos h1]
    by_cases h2 : "..".data.isPrefixOf ref.data = true
    · rw [if_pos h2]
      exact Or.inl rfl
    · rw [if_neg h2]
      exact Or.inr rfl
  · rw [if_neg h1]
    exact Or.inl rfl

/-- Claim C4 counterexample: `"..a"` contains only word characters, hyphens,
dots and spaces and is present in the valid-reference set `["..a"]`, yet it
is rejected, because the sanitizer also rejects any accepted-charset name
beginning with `".."`. -/
theorem c4_counterexample :
    "..a".data.all refChar = true ∧ "..a" ∈ ["..a"] ∧
      validate_output_references ["..a"] ["..a"] = false := by
  decide

/-- Claim C4 (amended): `"../../etc/passwd"` is rejected against every
valid-reference set; a nonempty name of word characters, hyphens, dots and
spaces that does not begin with `".."` and is present in the set is
accepted; a name absent from the set is rejected. -/
theorem c4_reference_rules :
    (∀ valid_refs : List String,
        validate_output_references ["../../etc/passwd"] valid_refs = false)
    ∧ (∀ (name : String) (valid_refs : List String),
        name.data ≠ [] → name.data.all refChar = true →
        "..".data.isPrefixOf name.data = false → name ∈ valid_refs →
        validate_output_references [name] valid_refs = true)
    ∧ (∀ (name : String) (valid_refs : List String), name ∉ valid_refs →
        validate_output_references [name] valid_refs = false) := by
  refine ⟨?_, ?_, ?_⟩
  · intro valid_refs
    have h : validate_metadata_reference "../../etc/passwd" = none := by decide
    simp [validate_output_references, refAccepted, h]
  · intro name valid_refs hne hall hpre hmem
    have hok : refCharsetOk name.data = true := by
      unfold refCharsetOk
      have hlast : ¬ (name.data.getLast? = some '\n') := by
        intro hl
        have hmem2 : '\n' ∈ name.data := List.mem_of_mem_getLast? hl
        have hc := List.all_eq_true.mp hall '\n' hmem2
        simp [refChar] at hc
      rw [if_neg hlast]
      simp [hall, hne]
    have hval : validate_metadata_reference name = some name := by
      unfold validate_metadata_reference
      rw [if_pos hok, if_neg (by simp [hpre])]
    simp [validate_output_references, refAccepted, hval, hmem]
  · intro name valid_refs hmem
    rcases validate_metadata_reference_eq name with h | h
    · simp [validate_output_references, refAccepted, h]
    · simp [validate_output_references, refAccepted, h, hmem]

/-- Witness for the amended C4 theorem: `"diagram.png"` in the set is
accepted. -/
theorem c4_witness :
    validate_output_references ["diagram.png"] ["diagram.png"] = true :=
  c4_reference_rules.2.1 "diagram.png" ["diagram.png"]
    (by decide) (by decide) (by decide) (by decide)

/-! ## Claim C5 -/

/-- Claim C5 counterexample: the raw query `"<script>hack</script>"`
contains the denylisted keyword `"hack"`, yet input validation succeeds,
because the injection sanitizer removes the whole script tag (keyword
included) before the content-safety check runs. -/
theorem c5_counterexample :
    isSubstrOf "hack".data (pyLower "<script>hack</script>".data) = true ∧
      "hack" ∈ harmful_keywords ∧
      validate_input "<script>hack</script>" (some ["doc"]) = .ok "" :=
  ⟨by decide, by decide, rfl⟩

/-- Claim C5 (amended): for every query of length at most 2000 whose
*sanitized* form contains a denylisted keyword in any letter-casing, input
validation fails with the content-safety error naming the first such keyword
in denylist order.  (A keyword present only in the raw query can be
destroyed by sanitization, in which case validation may succeed.) -/
theorem c5_sanitized_keyword_rejected :
    ∀ (query : String) (context : Option (List String)) (k : String),
      query.length ≤ 2000 →
      harmful_keywords.find?
          (fun k => isSubstrOf k.data (pyLower (check_injection_patterns query).data)) =
        some k →
      validate_input query context = .error (.sensitiveKeyword k) := by
  intro query context k hlen hfind
  unfold validate_input validate_input_length
  rw [if_neg (by omega)]
  unfold validate_content_safety
  simp only [hfind]

/-- Witness for the amended C5 theorem at a sanitization-stable query. -/
theorem c5_witness :
    validate_input "xpassword" none = .error (.sensitiveKeyword "password") :=
  c5_sanitized_keyword_rejected "xpassword" none "password" (by decide) (by decide)

/-! ## Claim C6 -/

/-- Claim C6: every query longer than 2000 characters is rejected by the
length check, the first validator in the chain, with the QueryTooLong error,
regardless of content and before any sanitization takes effect. -/
theorem c6_too_long_rejected :
    ∀ (query : String) (context : Option (List String)), 2000 < query.length →
      validate_input query context = .error .tooLong := by
  intro query context h
  unfold validate_input validate_input_length
  rw [if_pos h]

/-- Witness for C6 at a 2001-character query. -/
theorem c6_witness :
    validate_input ⟨List.replicate 2001 'a'⟩ none = .error .tooLong :=
  c6_too_long_rejected ⟨List.replicate 2001 'a'⟩ none
    (by simp [String.length])

/-! ## Claim C7 -/

/-- Claim C7: for queries within the length bound, the content-safety error
is raised exactly when the *sanitized* query contains a denylisted keyword;
in particular `"passdrop word"` contains no denylisted keyword, yet is
rejected, because removing the SQL-verb match `"drop "` splices the
remainder into `"password"`. -/
theorem c7_content_safety_on_sanitized :
    (∀ (query : String) (context : Option (List String)), query.length ≤ 2000 →
        ((∃ k, validate_input query context = .error (.sensitiveKeyword k)) ↔
          keywordHit (check_injection_patterns query) = true))
    ∧ keywordHit "passdrop word" = false
    ∧ validate_input "passdrop word" (some ["doc"]) =
        .error (.sensitiveKeyword "password") := by
  refine ⟨?_, by decide, rfl⟩
  intro query context hlen
  constructor
  · rintro ⟨k, hk⟩
    unfold validate_input validate_input_length at hk
    rw [if_neg (by omega)] at hk
    unfold validate_content_safety at hk
    cases hfind : harmful_keywords.find?
        (fun k => isSubstrOf k.data (pyLower (check_injection_patterns query).data)) with
    | some k2 =>
      have hp := List.find?_some hfind
      have hm := List.mem_of_find?_eq_some hfind
      exact List.any_eq_true.mpr ⟨k2, hm, hp⟩
    | none =>
      simp only [hfind] at hk
      unfold check_document_context at hk
      by_cases hd : context.getD [] = []
      · rw [if_pos hd] at hk
        exact absurd hk (by simp)
      · rw [if_neg hd] at hk
        exact absurd hk (by simp)
  · intro hhit
    have hsome : (harmful_keywords.find?
        (fun k => isSubstrOf k.data (pyLower (check_injection_patterns query).data))).isSome := by
      rw [List.find?_isSome]
      exact List.any_eq_true.mp hhit
    obtain ⟨k2, hfind⟩ := Option.isSome_iff_exists.mp hsome
    refine ⟨k2, ?_⟩
    unfold validate_input validate_input_length
    rw [if_neg (by omega)]
    unfold validate_content_safety
    simp only [hfind]

/-- Witness for C7: the biconditional applied at `"passdrop word"`. -/
theorem c7_witness :
    ∃ k, validate_input "passdrop word" (some ["doc"]) =
      .error (.sensitiveKeyword k) :=
  (c7_content_safety_on_sanitized.1 "passdrop word" (some ["doc"])
    (by decide)).mpr (by decide)

/-! ## Claim C8 -/

/-- Each append loop of `process_document` appends the mapped elements in
order. -/
theorem foldl_append_singleton {α β : Type} (f : α → β) :
    ∀ (l : List α) (acc : List β),
      l.foldl (fun a x => a ++ [f x]) acc = acc ++ l.map f := by
  intro l
  induction l with
  | nil =>
    intro acc
    simp
  | cons x xs ih =>
    intro acc
    simp only [List.foldl_cons, List.map_cons]
    rw [ih]
    simp

/-- `assembleChunks` emits all image chunks, then all table chunks, then the
enumerated text chunks, in that order. -/
theorem assembleChunks_eq (split : String → List String) (text : String)
    (images : List ImgMeta) (tables : List TblMeta) :
    assembleChunks split text images tables =
      images.map imageChunk ++ tables.map tableChunk ++
        (split text).enum.map textChunk := by
  unfold assembleChunks
  rw [foldl_append_singleton, foldl_append_singleton, foldl_append_singleton]
  simp [List.append_assoc]

/-- Claim C8: for every supported document (either extraction path), the
emitted chunk list is all image chunks, then all table chunks, then all text
chunks; and the text chunk at window position `i` carries content equal to
that window and metadata exactly `chunk_id = i`. -/
theorem c8_chunk_order :
    (∀ (split : String → List String)
        (extractPdf extractDocx : String → String × List ImgMeta × List TblMeta)
        (file_path file_type : String),
        pyLowerS file_type = "pdf" →
        process_document split extractPdf extractDocx file_path file_type =
          .ok (chunksFor split (extractPdf file_path)))
    ∧ (∀ (split : String → List String)
        (extractPdf extractDocx : String → String × List ImgMeta × List TblMeta)
        (file_path file_type : String),
        pyLowerS file_type = "docx" ∨ pyLowerS file_type = "doc" →
        process_document split extractPdf extractDocx file_path file_type =
          .ok (chunksFor split (extractDocx file_path)))
    ∧ (∀ (ws : List String) (i : Nat) (w : String), ws.get? i = some w →
        (ws.enum.map textChunk).get? i = some ⟨"text", .str w, .chunkId i⟩) := by
  refine ⟨?_, ?_, ?_⟩
  · intro split extractPdf extractDocx file_path file_type h
    unfold process_document
    rw [if_pos h]
    unfold chunksFor
    simp only [assembleChunks_eq]
  · intro split extractPdf extractDocx file_path file_type h
    have hne : ¬ (pyLowerS file_type = "pdf") := by
      rcases h with h | h <;> rw [h] <;> decide
    unfold process_document
    rw [if_neg hne, if_pos h]
    unfold chunksFor
    simp only [assembleChunks_eq]
  · intro ws i w hw
    rw [List.get?_map]
    show ((List.enumFrom 0 ws).get? i).map textChunk = _
    rw [List.enumFrom_get?, hw]
    simp [textChunk]

/-- Witness for C8 on a one-window document with no images or tables. -/
theorem c8_witness :
    process_document (fun s => [s]) (fun _ => ("t", [], []))
        (fun _ => ("u", [], [])) "p" "pdf" =
      .ok [⟨"text", .str "t", .chunkId 0⟩] := by
  have h := c8_chunk_order.1 (fun s => [s]) (fun _ => ("t", [], []))
    (fun _ => ("u", [], [])) "p" "pdf" (by decide)
  exact h

/-! ## Claim C9 -/

/-- Claim C9: on every backend failure — a raised request exception
(unreachable service) or a non-success status — `generate_response` returns
a string beginning with `"Error"` instead of propagating an exception (the
embedding is a total function into `String`; no failure path is missing). -/
theorem c9_backend_failure_degrades :
    ∀ (prompt context : String) (outcome : BackendOutcome),
      isBackendFailure outcome = true →
      (generate_response prompt context outcome).data.take 5 = "Error".data := by
  intro prompt context outcome h
  cases outcome with
  | exn msg => rfl
  | resp status field =>
    have hne : ¬ (status = 200) := by
      intro heq
      rw [heq] at h
      simp [isBackendFailure] at h
    show ((if status = 200 then _ else _ : String)).data.take 5 = _
    rw [if_neg hne]
    rfl

/-- Witness for C9 at an unreachable backend. -/
theorem c9_witness :
    (generate_response "p" "c" (.exn "boom")).data.take 5 = "Error".data :=
  c9_backend_failure_degrades "p" "c" (.exn "boom") rfl

/-! ## Claim C10 -/

/-- Claim C10: the three output validators are extensionally equal (the two
placeholders delegate to `validate_response_accuracy`), and the whole output
pipeline with no reference set returns exactly the single grounding
check. -/
theorem c10_validators_equal :
    (∀ (response : String) (sources : List String),
        check_hallucination response sources =
          validate_response_accuracy response sources)
    ∧ (∀ (response : String) (sources : List String),
        verify_source_grounding response sources =
          validate_response_accuracy response sources)
    ∧ (∀ (response : String) (sources : List String),
        validate_output response sources none =
          validate_response_accuracy response sources) := by
  refine ⟨fun _ _ => rfl, fun _ _ => rfl, ?_⟩
  intro response sources
  unfold validate_output output_validators
  simp only [List.all_cons, List.all_nil, check_hallucination, verify_source_grounding]
  cases validate_response_accuracy response sources <;> simp
